import Mathlib

/-!
# TSEE engine core: attributes, camera scroll, lifecycle

A shallow embedding of `src/tsee/objects/tsee_attributes.c` and of
`TSEE_Create`, `TSEE_InitAll` and `TSEE_World_ScrollToObject` from
`src/tsee/main/tsee.c`, followed by the theorems about them.

Conventions of the embedding.

* `TSEE_Object_Attributes` values are natural numbers with the bitwise
  operators of `Nat`; a C `bool` result is `true` exactly when the returned
  integer is nonzero.
* `SDL_Rect` has integer fields; `int` arithmetic on them wraps at 32 bits
  in two's complement and `/` truncates toward zero.
* The `double` quantities of the camera code (scroll offsets, positions,
  window halves, mid-points) are exact rationals: rounding, infinities and
  NaN are outside the model.
* The screen rectangle `texture->rect` of an entity is an `SDL_Rect`, so a
  store of a `double` expression into its `x` or `y` converts the value to
  `int`: the fractional part is discarded (truncation toward zero).
* Memory is a trace of acquire and release events over named blocks; what
  `xmalloc` hands back is uninitialised, so the prior contents of a block
  are an input of the model.
-/

namespace Tsee

/-! ## Definitions: attributes (`tsee_attributes.c`) -/

/-- Modelled from the spec: the enumerator `TSEE_ATTRIB_NONE` of the header
`tsee.h`, which the spec calls the distinguished `NONE` value (zero). -/
def TSEE_ATTRIB_NONE : Nat := 0

/-- `TSEE_Attributes_Check`, lines 10-14. The first branch returns the value
of the assignment expression `attr = against`, that is the new value of
`attr`, converted to `bool`; the second returns `attr & against` converted
to `bool`. -/
def TSEE_Attributes_Check (attr against : Nat) : Bool :=
  if against = TSEE_ATTRIB_NONE then
    let attr := against
    decide (attr ≠ 0)
  else
    decide (attr &&& against ≠ 0)

/-- `TSEE_Attributes_Set`, lines 22-26: the new value of `*attr`. -/
def TSEE_Attributes_Set (attr to_set : Nat) : Nat :=
  if to_set = TSEE_ATTRIB_NONE then TSEE_ATTRIB_NONE else attr ||| to_set

/-! ## Definitions: data model of the camera (`tsee.h` is not in the sources) -/

/-- The `SDL_Rect` of SDL: four `int` fields. -/
structure SDL_Rect where
  x : Int
  y : Int
  w : Int
  h : Int
  deriving DecidableEq, Repr

/-- Result of an `int` operation brought back into the 32-bit two's
complement range. -/
def wrap32 (n : Int) : Int := Int.bmod n (2 ^ 32)

/-- Modelled from the spec: `TSEE_Vec2`, a pair of components (world-space
position, gravity vector). -/
structure TSEE_Vec2 where
  x : ℚ
  y : ℚ
  deriving DecidableEq

/-- Modelled from the spec: `TSEE_Object`, an entity: a world-space
position, a capability bitmask and the screen-space projection rectangle
`texture->rect`, an `SDL_Rect`. -/
structure TSEE_Object where
  position : TSEE_Vec2
  attributes : Nat
  rect : SDL_Rect
  deriving DecidableEq

/-- Modelled from the spec: `TSEE_Window`, with the fields `TSEE_Create`
writes. -/
structure TSEE_Window where
  width : Int
  height : Int
  running : Bool
  fps : Int
  last_render : Nat
  deriving DecidableEq

/-- Modelled from the spec: `TSEE_World`, the two entity sequences, the
gravity vector, the scroll offsets and the horizontal scroll bound. -/
structure TSEE_World where
  objects : List TSEE_Object
  parallax_objects : List TSEE_Object
  scroll_x : ℚ
  scroll_y : ℚ
  max_scroll_x : ℚ
  gravity : TSEE_Vec2
  deriving DecidableEq

/-- Modelled from the spec: the enumerators `TSEE_ATTRIB_UI`,
`TSEE_ATTRIB_PLAYER` and `TSEE_ATTRIB_PARALLAX` of `tsee.h`. Their values are
not in the sources, so they are a parameter of the camera. -/
structure TSEE_Attribs where
  UI : Nat
  PLAYER : Nat
  PARALLAX : Nat

/-- Modelled from the spec: `TSEE_Object_CheckAttribute`, the capability
check applied to the bitmask of an entity. -/
def TSEE_Object_CheckAttribute (object : TSEE_Object) (against : Nat) : Bool :=
  TSEE_Attributes_Check object.attributes against

/-! ## Definitions: `TSEE_World_ScrollToObject` (`tsee.c`, lines 298-352)

`pos` is the rectangle `TSEE_Object_GetRect(obj)` returns for the tracked
object (the function is not in the sources, so its result is an input).
`obj` is the index of the tracked object in `world->objects`; an index past
the end stands for a tracked object that is not held in that sequence. -/

/-- `double mid_x = pos.x + pos.w / 2;` with `int` arithmetic on the right. -/
def mid_x (pos : SDL_Rect) : ℚ := ((wrap32 (pos.x + Int.tdiv pos.w 2) : Int) : ℚ)

/-- `double mid_y = pos.y + pos.h / 2;` with `int` arithmetic on the right. -/
def mid_y (pos : SDL_Rect) : ℚ := ((wrap32 (pos.y + Int.tdiv pos.h 2) : Int) : ℚ)

/-- `double half_win_width = win_width / 2;` -/
def half_win_width (window : TSEE_Window) : ℚ := (window.width : ℚ) / 2

/-- `double half_win_height = win_height / 2;` -/
def half_win_height (window : TSEE_Window) : ℚ := (window.height : ℚ) / 2

/-- Which arm of the `if` / `else if` of lines 309-318 runs. -/
inductive HBranch where
  | left
  | right
  | skip
  deriving DecidableEq, Repr

/-- Which arm of the `if` / `else if` of lines 320-328 runs. -/
inductive VBranch where
  | floor
  | ceiling
  | skip
  deriving DecidableEq, Repr

/-- Guards of lines 309 and 313-314. -/
def horizontalBranch (window : TSEE_Window) (world : TSEE_World) (pos : SDL_Rect) : HBranch :=
  if mid_x pos < half_win_width window ∧ world.scroll_x > 0 then HBranch.left
  else if mid_x pos > half_win_width window ∧ world.scroll_x < world.max_scroll_x then
    HBranch.right
  else HBranch.skip

/-- Guards of lines 320 and 324. -/
def verticalBranch (window : TSEE_Window) (world : TSEE_World) (pos : SDL_Rect) : VBranch :=
  if mid_y pos > half_win_height window * (3 / 4) then VBranch.floor
  else if mid_y pos < half_win_height window * (1 / 4) ∧ world.scroll_y < 0 then
    VBranch.ceiling
  else VBranch.skip

/-- Conversion of a `double` to `int`, as on a store into an `int` field:
the value is truncated toward zero. A result outside the range of `int`
(undefined in C) is brought back into the 32-bit range. -/
def double_to_int (v : ℚ) : Int :=
  wrap32 (if 0 ≤ v then ⌊v⌋ else ⌈v⌉)

/-- The store `obj->texture->rect.x = v` of a `double` value `v`. -/
def setRectX (v : ℚ) (o : TSEE_Object) : TSEE_Object :=
  { o with rect := { o.rect with x := double_to_int v } }

/-- The store `obj->texture->rect.y = v` of a `double` value `v`. -/
def setRectY (v : ℚ) (o : TSEE_Object) : TSEE_Object :=
  { o with rect := { o.rect with y := double_to_int v } }

/-- Lines 309-318: the horizontal dead-zone. -/
def scrollHorizontal (window : TSEE_Window) (world : TSEE_World) (obj : Nat)
    (pos : SDL_Rect) : TSEE_World :=
  match horizontalBranch window world pos with
  | HBranch.left =>
    let diff := half_win_width window - mid_x pos
    { world with
      scroll_x := world.scroll_x - diff
      objects := world.objects.modify
        (setRectX (half_win_width window - ((Int.tdiv pos.w 2 : Int) : ℚ))) obj }
  | HBranch.right =>
    let diff := mid_x pos - half_win_width window
    { world with
      scroll_x := world.scroll_x + diff
      objects := world.objects.modify
        (setRectX (half_win_width window - ((Int.tdiv pos.w 2 : Int) : ℚ))) obj }
  | HBranch.skip => world

/-- Lines 320-328: the vertical dead-zone. -/
def scrollVertical (window : TSEE_Window) (world : TSEE_World) (obj : Nat)
    (pos : SDL_Rect) : TSEE_World :=
  match verticalBranch window world pos with
  | VBranch.floor =>
    let diff := mid_y pos - half_win_height window * (3 / 4)
    { world with
      scroll_y := world.scroll_y - diff
      objects := world.objects.modify
        (setRectY (half_win_height window * (3 / 4) - ((Int.tdiv pos.h 2 : Int) : ℚ))) obj }
  | VBranch.ceiling =>
    let diff := half_win_height window * (1 / 4) - mid_y pos
    { world with
      scroll_y := world.scroll_y + diff
      objects := world.objects.modify
        (setRectY (half_win_height window * (1 / 4) - ((Int.tdiv pos.h 2 : Int) : ℚ))) obj }
  | VBranch.skip => world

/-- Lines 330-338: the clamp of both scroll offsets. -/
def clampScroll (world : TSEE_World) : TSEE_World :=
  let world :=
    if world.scroll_x < 0 then { world with scroll_x := 0 }
    else if world.scroll_x > world.max_scroll_x then
      { world with scroll_x := world.max_scroll_x }
    else world
  if world.scroll_y < 0 then { world with scroll_y := 0 } else world

/-- Body of the loop of lines 340-351 for one entity. -/
def reprojectObject (A : TSEE_Attribs) (window : TSEE_Window) (world : TSEE_World)
    (object : TSEE_Object) : TSEE_Object :=
  if TSEE_Object_CheckAttribute object A.UI ||
      TSEE_Object_CheckAttribute object A.PLAYER then object
  else
    let object :=
      if !TSEE_Object_CheckAttribute object A.PARALLAX then
        setRectX (object.position.x - world.scroll_x) object
      else object
    setRectY (object.position.y * (-1) + (window.height : ℚ) - world.scroll_y) object

/-- Lines 340-351: the loop over `world->objects`. -/
def reproject (A : TSEE_Attribs) (window : TSEE_Window) (world : TSEE_World) : TSEE_World :=
  { world with objects := world.objects.map (reprojectObject A window world) }

/-- `TSEE_World_ScrollToObject` on the window and world of the engine: the
world it leaves behind. -/
def TSEE_World_ScrollToObject (A : TSEE_Attribs) (window : TSEE_Window)
    (world : TSEE_World) (obj : Nat) (pos : SDL_Rect) : TSEE_World :=
  reproject A window
    (clampScroll (scrollVertical window (scrollHorizontal window world obj pos) obj pos))

/-- One call of the camera in a sequence of calls: what the rest of the
engine presents at that call (window, entities of the main sequence, scroll
bound), the index of the tracked object and its rectangle. The scroll offsets
are written by the camera only, so they carry over from call to call. -/
structure CameraCall where
  window : TSEE_Window
  objects : List TSEE_Object
  max_scroll_x : ℚ
  obj : Nat
  pos : SDL_Rect

/-- A sequence of calls of `TSEE_World_ScrollToObject`, first call first. -/
def scrollSequence (A : TSEE_Attribs) (world : TSEE_World) (calls : List CameraCall) :
    TSEE_World :=
  calls.foldl
    (fun w c =>
      TSEE_World_ScrollToObject A c.window
        { w with objects := c.objects, max_scroll_x := c.max_scroll_x } c.obj c.pos)
    world

/-! ## Definitions: concrete inputs of the worked scenarios -/

/-- Attribute values for the scenarios: three distinct single bits. -/
def sampleAttribs : TSEE_Attribs := { UI := 1, PLAYER := 2, PARALLAX := 4 }

/-- The 800 x 600 window of the scenarios of the spec. -/
def sampleWindow : TSEE_Window :=
  { width := 800, height := 600, running := true, fps := 60, last_render := 0 }

/-- A window of odd width, 801 x 600, whose half width is not an integer. -/
def oddWindow : TSEE_Window :=
  { width := 801, height := 600, running := true, fps := 60, last_render := 0 }

/-- An entity without traits at world position (50, 0). -/
def sampleObject : TSEE_Object :=
  { position := { x := 50, y := 0 }, attributes := 0, rect := { x := 0, y := 0, w := 20, h := 20 } }

/-- A world with `max_scroll_x = 1000` holding `sampleObject`, scrolled to
`(sx, sy)`. -/
def sampleWorld (sx sy : ℚ) : TSEE_World :=
  { objects := [sampleObject], parallax_objects := [], scroll_x := sx, scroll_y := sy,
    max_scroll_x := 1000, gravity := { x := 0, y := 0 } }

/-! ## Definitions: `TSEE_Create` (`tsee.c`, lines 10-138) -/

/-- The heap objects `TSEE_Create` acquires: seven `xmalloc` blocks and the
two arrays of the world. -/
inductive Block where
  | tsee
  | window
  | world
  | objects
  | parallax_objects
  | player
  | ui
  | init
  | debug
  deriving DecidableEq, Repr

/-- The allocation step a block belongs to: engine 1, window 2, world 3
(with its two arrays), player 4, UI root 5, init-flags 6, debug-counters 7. -/
def Block.step : Block → Nat
  | Block.tsee => 1
  | Block.window => 2
  | Block.world => 3
  | Block.objects => 3
  | Block.parallax_objects => 3
  | Block.player => 4
  | Block.ui => 5
  | Block.init => 6
  | Block.debug => 7

/-- A heap event: `xmalloc` / `TSEE_Array_Create` returning a block, or
`xfree` / `TSEE_Array_Destroy` releasing one. -/
inductive MemEvent where
  | acquire (b : Block)
  | release (b : Block)
  deriving DecidableEq, Repr

/-- Modelled from the spec: the movement-intent record of the player. -/
structure TSEE_Movement where
  up : Bool
  down : Bool
  left : Bool
  right : Bool
  deriving DecidableEq

/-- Modelled from the spec: `TSEE_Player`, with the fields `TSEE_Create`
writes; `object` is the non-owning reference to the controlled entity. -/
structure TSEE_Player where
  object : Option Nat
  movement : TSEE_Movement
  grounded : Bool
  held_up : Int
  jump_force : ℚ
  speed : ℚ
  step_size : ℚ
  deriving DecidableEq

/-- Modelled from the spec: the init-flags record `*tsee->init`, with the
flags `TSEE_Create` writes (`text`, `ui`, `rendering`, `events`, `input`) and
the flag `resources` that `TSEE_Close` reads at line 252. -/
structure TSEE_Init where
  text : Bool
  ui : Bool
  rendering : Bool
  events : Bool
  input : Bool
  resources : Bool
  deriving DecidableEq, Repr

/-- Modelled from the spec: the debug-counters record `*tsee->debug`. -/
structure TSEE_Debug where
  event_time : ℚ
  physics_time : ℚ
  render_time : ℚ
  object_time : ℚ
  parallax_time : ℚ
  ui_time : ℚ
  frame_time : ℚ
  framerate : ℚ
  active : Bool
  deriving DecidableEq

/-- Modelled from the spec: the root engine object `TSEE`, with the parts
`TSEE_Create` fills in (the UI root block is acquired but not written). -/
structure TSEE where
  window : TSEE_Window
  world : TSEE_World
  player : TSEE_Player
  dt : ℚ
  last_time : Nat
  current_time : Nat
  init : TSEE_Init
  debug : TSEE_Debug
  deriving DecidableEq

/-- `TSEE_Create`. `xmalloc b` tells whether the `xmalloc` call for block `b`
returns a block (`true`) or `NULL`; `fresh` is the content of the block
`xmalloc` returns for `tsee->init` before anything is written to it; `now` is
the value of `SDL_GetPerformanceCounter()`. The result is the returned engine
(`none` for `NULL`) and the heap events of the call in order. Logging,
`SDL_SetHint` and the closing `TSEE_Settings_Load` call (settings
persistence, an external collaborator) are not part of the model. -/
def TSEE_Create (width height : Int) (xmalloc : Block → Bool) (fresh : TSEE_Init)
    (now : Nat) : Option TSEE × List MemEvent :=
  let tr : List MemEvent := []
  if !xmalloc Block.tsee then (none, tr) else
  let tr := tr ++ [MemEvent.acquire Block.tsee]
  -- Setup window + renderer
  if !xmalloc Block.window then (none, tr ++ [MemEvent.release Block.tsee]) else
  let tr := tr ++ [MemEvent.acquire Block.window]
  let window : TSEE_Window :=
    { width := width, height := height, running := true, fps := 60, last_render := 0 }
  -- Setup world + textures
  if !xmalloc Block.world then
    (none, tr ++ [MemEvent.release Block.window, MemEvent.release Block.tsee]) else
  let tr := tr ++ [MemEvent.acquire Block.world]
  let tr := tr ++ [MemEvent.acquire Block.objects]
  let tr := tr ++ [MemEvent.acquire Block.parallax_objects]
  let world : TSEE_World :=
    { objects := [], parallax_objects := [], scroll_x := 0, scroll_y := 0,
      max_scroll_x := 0, gravity := { x := 0, y := 0 } }
  -- Setup player
  if !xmalloc Block.player then
    (none, tr ++ [MemEvent.release Block.objects, MemEvent.release Block.parallax_objects,
      MemEvent.release Block.world, MemEvent.release Block.window,
      MemEvent.release Block.tsee]) else
  let tr := tr ++ [MemEvent.acquire Block.player]
  let player : TSEE_Player :=
    { object := none,
      movement := { up := false, down := false, left := false, right := false },
      grounded := false, held_up := 0, jump_force := 1, speed := 1, step_size := 5 }
  -- Setup UI
  if !xmalloc Block.ui then
    (none, tr ++ [MemEvent.release Block.player, MemEvent.release Block.objects,
      MemEvent.release Block.parallax_objects, MemEvent.release Block.world,
      MemEvent.release Block.window, MemEvent.release Block.tsee]) else
  let tr := tr ++ [MemEvent.acquire Block.ui]
  -- Setup init stuff
  if !xmalloc Block.init then
    (none, tr ++ [MemEvent.release Block.ui, MemEvent.release Block.player,
      MemEvent.release Block.objects, MemEvent.release Block.parallax_objects,
      MemEvent.release Block.world, MemEvent.release Block.window,
      MemEvent.release Block.tsee]) else
  let tr := tr ++ [MemEvent.acquire Block.init]
  let init : TSEE_Init :=
    { fresh with text := false, ui := false, rendering := false, events := false,
                 input := false }
  -- Setup Debugging Counters
  if !xmalloc Block.debug then
    (none, tr ++ [MemEvent.release Block.init, MemEvent.release Block.ui,
      MemEvent.release Block.player, MemEvent.release Block.objects,
      MemEvent.release Block.parallax_objects, MemEvent.release Block.world,
      MemEvent.release Block.window, MemEvent.release Block.tsee]) else
  let tr := tr ++ [MemEvent.acquire Block.debug]
  let debug : TSEE_Debug :=
    { event_time := 0, physics_time := 0, render_time := 0, object_time := 0,
      parallax_time := 0, ui_time := 0, frame_time := 0, framerate := 0, active := false }
  (some { window := window, world := world, player := player, dt := 0, last_time := 0,
          current_time := now, init := init, debug := debug }, tr)

/-- The seven checked allocation steps, in the order of the source. -/
def allocationSteps : List Block :=
  [Block.tsee, Block.window, Block.world, Block.player, Block.ui, Block.init, Block.debug]

/-- Every acquisition of a complete `TSEE_Create`, in the order of the source. -/
def acquisitionOrder : List Block :=
  [Block.tsee, Block.window, Block.world, Block.objects, Block.parallax_objects,
    Block.player, Block.ui, Block.init, Block.debug]

/-- The order in which the rollback paths of `TSEE_Create` release blocks. -/
def rollbackOrder : List Block :=
  [Block.debug, Block.init, Block.ui, Block.player, Block.objects, Block.parallax_objects,
    Block.world, Block.window, Block.tsee]

/-- The blocks a trace acquires, in order. -/
def acquired : List MemEvent → List Block
  | [] => []
  | MemEvent.acquire b :: tr => b :: acquired tr
  | MemEvent.release _ :: tr => acquired tr

/-- The blocks a trace releases, in order. -/
def released : List MemEvent → List Block
  | [] => []
  | MemEvent.acquire _ :: tr => released tr
  | MemEvent.release b :: tr => b :: released tr

/-- One heap event on the set of live blocks; `none` when the event is
illegal (a block acquired while live, or released while not live). -/
def heapStep (live : Option (List Block)) (e : MemEvent) : Option (List Block) :=
  match live, e with
  | none, _ => none
  | some l, MemEvent.acquire b => if b ∈ l then none else some (b :: l)
  | some l, MemEvent.release b => if b ∈ l then some (l.erase b) else none

/-- The live blocks after a trace, starting from the live blocks `live`. -/
def runHeap (live : List Block) (tr : List MemEvent) : Option (List Block) :=
  tr.foldl heapStep (some live)

/-- The engine `TSEE_Create(800, 600)` returns when every allocation succeeds,
the init block held only set flags and the performance counter reads 0. -/
def sampleEngine : TSEE :=
  { window := sampleWindow,
    world :=
      { objects := [], parallax_objects := [], scroll_x := 0, scroll_y := 0,
        max_scroll_x := 0, gravity := { x := 0, y := 0 } },
    player :=
      { object := none,
        movement := { up := false, down := false, left := false, right := false },
        grounded := false, held_up := 0, jump_force := 1, speed := 1, step_size := 5 },
    dt := 0, last_time := 0, current_time := 0,
    init :=
      { text := false, ui := false, rendering := false, events := false, input := false,
        resources := true },
    debug :=
      { event_time := 0, physics_time := 0, render_time := 0, object_time := 0,
        parallax_time := 0, ui_time := 0, frame_time := 0, framerate := 0, active := false } }

/-! ## Definitions: `TSEE_InitAll` (`tsee.c`, lines 145-190) -/

/-- The seven subsystems `TSEE_InitAll` initialises. -/
inductive Subsystem where
  | Rendering
  | Resources
  | Text
  | Events
  | Input
  | UI
  | Animation
  deriving DecidableEq, Repr

/-- A call `TSEE_InitAll` makes: a subsystem initialiser or `TSEE_Close`. -/
inductive InitCall where
  | init (s : Subsystem)
  | close
  deriving DecidableEq, Repr

/-- `TSEE_InitAll`. `ok s` is the result the initialiser of subsystem `s`
returns. The result is the returned `bool` and the calls made, in order. -/
def TSEE_InitAll (ok : Subsystem → Bool) : Bool × List InitCall :=
  let tr : List InitCall := [InitCall.init Subsystem.Rendering]
  if !ok Subsystem.Rendering then (false, tr ++ [InitCall.close]) else
  let tr := tr ++ [InitCall.init Subsystem.Resources]
  if !ok Subsystem.Resources then (false, tr ++ [InitCall.close]) else
  let tr := tr ++ [InitCall.init Subsystem.Text]
  if !ok Subsystem.Text then (false, tr ++ [InitCall.close]) else
  let tr := tr ++ [InitCall.init Subsystem.Events]
  if !ok Subsystem.Events then (false, tr ++ [InitCall.close]) else
  let tr := tr ++ [InitCall.init Subsystem.Input]
  if !ok Subsystem.Input then (false, tr ++ [InitCall.close]) else
  let tr := tr ++ [InitCall.init Subsystem.UI]
  if !ok Subsystem.UI then (false, tr ++ [InitCall.close]) else
  let tr := tr ++ [InitCall.init Subsystem.Animation]
  if !ok Subsystem.Animation then (false, tr ++ [InitCall.close]) else
  (true, tr)

/-- The order the spec gives for the initialisers. -/
def initOrder : List Subsystem :=
  [Subsystem.Rendering, Subsystem.Resources, Subsystem.Text, Subsystem.Events,
    Subsystem.Input, Subsystem.UI, Subsystem.Animation]

/-! ## Theorems -/

/-- C1 (code as written): at the empty mask the call
`TSEE_Attributes_Check(0, TSEE_ATTRIB_NONE)` returns false, and in fact the
check against `NONE` returns false for every mask, because the branch
returns the value of an assignment of `NONE` rather than a comparison. -/
theorem check_none_returns_false :
    TSEE_Attributes_Check 0 TSEE_ATTRIB_NONE = false ∧
      ∀ mask : Nat, TSEE_Attributes_Check mask TSEE_ATTRIB_NONE = false := by
  constructor
  · decide
  · intro mask
    simp [TSEE_Attributes_Check, TSEE_ATTRIB_NONE]

/-- C2: `TSEE_Attributes_Set` leaves the mask equal to 0 when the trait is
`NONE`, and equal to `mask ||| trait` otherwise; in the second case every bit
of the old mask is still present in the new one. -/
theorem set_none_clears_else_ors (mask trait : Nat) :
    (trait = TSEE_ATTRIB_NONE → TSEE_Attributes_Set mask trait = 0) ∧
      (trait ≠ TSEE_ATTRIB_NONE →
        TSEE_Attributes_Set mask trait = mask ||| trait ∧
          ∀ i : Nat, mask.testBit i = true →
            (TSEE_Attributes_Set mask trait).testBit i = true) := by
  constructor
  · intro h
    simp [TSEE_Attributes_Set, h, TSEE_ATTRIB_NONE]
  · intro h
    have hset : TSEE_Attributes_Set mask trait = mask ||| trait := by
      simp [TSEE_Attributes_Set, h]
    refine ⟨hset, ?_⟩
    intro i hi
    rw [hset, Nat.testBit_or, hi]
    rfl

/-- Witness of C2 at mask `0b1011`: the trait `NONE` clears it, the trait
`0b0100` turns it into `0b1111`. -/
theorem set_none_clears_else_ors_witness :
    TSEE_Attributes_Set 11 TSEE_ATTRIB_NONE = 0 ∧
      TSEE_Attributes_Set 11 4 = 11 ||| 4 ∧
      (TSEE_Attributes_Set 11 4).testBit 3 = true :=
  ⟨(set_none_clears_else_ors 11 TSEE_ATTRIB_NONE).1 rfl,
    ((set_none_clears_else_ors 11 4).2 (by decide)).1,
    ((set_none_clears_else_ors 11 4).2 (by decide)).2 3 (by decide)⟩

/-- C9: for a single-bit trait `2 ^ k` (which is never `NONE`),
`TSEE_Attributes_Check mask (2 ^ k)` is true exactly when `mask &&& 2 ^ k` is
nonzero, that is exactly when bit `k` is present in `mask`; and the check is
true on the mask that `TSEE_Attributes_Set mask (2 ^ k)` produces. -/
theorem check_single_bit (mask k : Nat) :
    2 ^ k ≠ TSEE_ATTRIB_NONE ∧
      (TSEE_Attributes_Check mask (2 ^ k) = true ↔ mask &&& 2 ^ k ≠ 0) ∧
      (TSEE_Attributes_Check mask (2 ^ k) = true ↔ mask.testBit k = true) ∧
      TSEE_Attributes_Check (TSEE_Attributes_Set mask (2 ^ k)) (2 ^ k) = true := by
  have hk : (2 : Nat) ^ k ≠ 0 := Nat.pos_iff_ne_zero.mp (Nat.two_pow_pos k)
  have hpos : 0 < 2 ^ k := Nat.two_pow_pos k
  have hchk : ∀ m : Nat,
      (TSEE_Attributes_Check m (2 ^ k) = true ↔ m.testBit k = true) := by
    intro m
    unfold TSEE_Attributes_Check TSEE_ATTRIB_NONE
    rw [if_neg hk, Nat.and_two_pow]
    cases hb : m.testBit k <;> simp [hk]
  refine ⟨hk, ?_, hchk mask, ?_⟩
  · unfold TSEE_Attributes_Check TSEE_ATTRIB_NONE
    rw [if_neg hk]
    simp
  · rw [hchk]
    unfold TSEE_Attributes_Set TSEE_ATTRIB_NONE
    rw [if_neg hk, Nat.testBit_or, Nat.testBit_two_pow_self]
    simp


/-! ### Lifecycle -/

/-- A property holds of every subsystem exactly when it holds of the seven. -/
theorem forall_subsystem (P : Subsystem → Prop) :
    (∀ s, P s) ↔
      P Subsystem.Rendering ∧ P Subsystem.Resources ∧ P Subsystem.Text ∧
        P Subsystem.Events ∧ P Subsystem.Input ∧ P Subsystem.UI ∧ P Subsystem.Animation := by
  constructor
  · intro h
    exact ⟨h _, h _, h _, h _, h _, h _, h _⟩
  · rintro ⟨h1, h2, h3, h4, h5, h6, h7⟩ s
    cases s <;> assumption

/-- C6: `TSEE_InitAll` returns true exactly when all seven initialisers
succeed, and then it has called them in the order Rendering, Resources, Text,
Events, Input, UI, Animation and has not called `TSEE_Close`. Otherwise, with
`s` the first initialiser in that order that fails, it returns false and its
calls are: the initialisers before `s` in order, then `s`, then `TSEE_Close`
once, and nothing else. With Text forced to fail the calls are Rendering,
Resources, Text, Close. -/
theorem initAll_stops_at_first_failure (ok : Subsystem → Bool) :
    ((TSEE_InitAll ok).1 = true ↔ ∀ s, ok s = true) ∧
      (match initOrder.find? (fun s => !ok s) with
        | none => TSEE_InitAll ok = (true, initOrder.map InitCall.init)
        | some s =>
          TSEE_InitAll ok =
            (false, (initOrder.takeWhile ok).map InitCall.init ++
              [InitCall.init s, InitCall.close])) ∧
      (TSEE_InitAll ok).2.count InitCall.close = (if (TSEE_InitAll ok).1 then 0 else 1) ∧
      TSEE_InitAll (fun s => decide (s ≠ Subsystem.Text)) =
        (false, [InitCall.init Subsystem.Rendering, InitCall.init Subsystem.Resources,
          InitCall.init Subsystem.Text, InitCall.close]) := by
  rw [forall_subsystem (fun s => ok s = true)]
  refine ⟨?_, ?_, ?_, by decide⟩ <;>
  cases h1 : ok Subsystem.Rendering <;> cases h2 : ok Subsystem.Resources <;>
  cases h3 : ok Subsystem.Text <;> cases h4 : ok Subsystem.Events <;>
  cases h5 : ok Subsystem.Input <;> cases h6 : ok Subsystem.UI <;>
  cases h7 : ok Subsystem.Animation <;>
  simp [TSEE_InitAll, initOrder, List.find?, List.takeWhile, h1, h2, h3, h4, h5, h6, h7]

/-- The trace of a `TSEE_Create` whose first failing allocation is step `k`:
the acquisitions of the earlier steps, then the releases of the rollback. -/
theorem create_fail_trace (width height : Int) (xmalloc : Block → Bool) (fresh : TSEE_Init)
    (now : Nat) (k : Block) (hk : k ∈ allocationSteps) (hfail : xmalloc k = false)
    (hprev : ∀ j ∈ allocationSteps, j.step < k.step → xmalloc j = true) :
    TSEE_Create width height xmalloc fresh now =
      (none,
        (acquisitionOrder.filter (fun b => decide (b.step < k.step))).map MemEvent.acquire ++
          (rollbackOrder.filter (fun b => decide (b.step < k.step))).map MemEvent.release) := by
  have h1 := hprev Block.tsee (by decide)
  have h2 := hprev Block.window (by decide)
  have h3 := hprev Block.world (by decide)
  have h4 := hprev Block.player (by decide)
  have h5 := hprev Block.ui (by decide)
  have h6 := hprev Block.init (by decide)
  cases k
  case objects => exact absurd hk (by decide)
  case parallax_objects => exact absurd hk (by decide)
  all_goals
    simp only [Block.step] at h1 h2 h3 h4 h5 h6
    simp [TSEE_Create, hfail, h1, h2, h3, h4, h5, h6, acquisitionOrder, rollbackOrder,
      Block.step, List.filter]

/-- C7 (as amended): when the allocation of step `k` fails and the earlier
ones succeed, `TSEE_Create` returns `NULL`; it has acquired exactly the
blocks of the steps before `k` (the two arrays of the world belonging to
step 3); it releases exactly those blocks, each once, the blocks of a later
step before those of an earlier step, and within step 3 the `objects` array,
then the `parallax_objects` array, then the world block; no release is
illegal and the live blocks after the call are those before it. -/
theorem create_rollback (width height : Int) (xmalloc : Block → Bool) (fresh : TSEE_Init)
    (now : Nat) (k : Block) (hk : k ∈ allocationSteps) (hfail : xmalloc k = false)
    (hprev : ∀ j ∈ allocationSteps, j.step < k.step → xmalloc j = true) :
    (TSEE_Create width height xmalloc fresh now).1 = none ∧
      acquired (TSEE_Create width height xmalloc fresh now).2 =
        acquisitionOrder.filter (fun b => decide (b.step < k.step)) ∧
      released (TSEE_Create width height xmalloc fresh now).2 =
        rollbackOrder.filter (fun b => decide (b.step < k.step)) ∧
      (released (TSEE_Create width height xmalloc fresh now).2).Perm
        (acquired (TSEE_Create width height xmalloc fresh now).2) ∧
      (released (TSEE_Create width height xmalloc fresh now).2).Nodup ∧
      ((released (TSEE_Create width height xmalloc fresh now).2).map Block.step).Pairwise
        (fun a b => b ≤ a) ∧
      runHeap [] (TSEE_Create width height xmalloc fresh now).2 = some [] := by
  rw [create_fail_trace width height xmalloc fresh now k hk hfail hprev]
  cases k
  case objects => exact absurd hk (by decide)
  case parallax_objects => exact absurd hk (by decide)
  all_goals exact ⟨rfl, by decide, by decide, by decide, by decide, by decide, by decide⟩

/-- Witness of C7 at the failure of the UI root allocation (step 5). -/
theorem create_rollback_witness :
    (TSEE_Create 800 600 (fun b => decide (b ≠ Block.ui)) ⟨true, true, true, true, true, true⟩
        7).1 = none ∧
      released (TSEE_Create 800 600 (fun b => decide (b ≠ Block.ui))
        ⟨true, true, true, true, true, true⟩ 7).2 =
        [Block.player, Block.objects, Block.parallax_objects, Block.world, Block.window,
          Block.tsee] ∧
      runHeap [] (TSEE_Create 800 600 (fun b => decide (b ≠ Block.ui))
        ⟨true, true, true, true, true, true⟩ 7).2 = some [] :=
  have h := create_rollback 800 600 (fun b => decide (b ≠ Block.ui))
    ⟨true, true, true, true, true, true⟩ 7 Block.ui (by decide) (by decide) (by decide)
  ⟨h.1, h.2.2.1, h.2.2.2.2.2.2⟩

/-- C7 (as stated) fails when the player allocation (step 4) fails: the
blocks were acquired in the order engine, window, world, `objects`,
`parallax_objects`, and are released in the order `objects`,
`parallax_objects`, world, window, engine, which is not the reverse. -/
theorem create_rollback_not_reverse :
    (TSEE_Create 800 600 (fun b => decide (b ≠ Block.player))
        ⟨true, true, true, true, true, true⟩ 7).1 = none ∧
      acquired (TSEE_Create 800 600 (fun b => decide (b ≠ Block.player))
        ⟨true, true, true, true, true, true⟩ 7).2 =
        [Block.tsee, Block.window, Block.world, Block.objects, Block.parallax_objects] ∧
      released (TSEE_Create 800 600 (fun b => decide (b ≠ Block.player))
        ⟨true, true, true, true, true, true⟩ 7).2 =
        [Block.objects, Block.parallax_objects, Block.world, Block.window, Block.tsee] ∧
      released (TSEE_Create 800 600 (fun b => decide (b ≠ Block.player))
        ⟨true, true, true, true, true, true⟩ 7).2 ≠
        (acquired (TSEE_Create 800 600 (fun b => decide (b ≠ Block.player))
          ⟨true, true, true, true, true, true⟩ 7).2).reverse := by
  decide

/-- C8 (code as written): when every allocation succeeds `TSEE_Create`
returns an engine whose init-flags record has `text`, `ui`, `rendering`,
`events` and `input` false and whose `resources` flag is whatever the block
held before; on a block that held a set `resources` flag the returned record
has `resources` true. -/
theorem create_leaves_resources_unwritten :
    (∀ (width height : Int) (fresh : TSEE_Init) (now : Nat),
      ((TSEE_Create width height (fun _ => true) fresh now).1.map (fun t => t.init)) =
        some ⟨false, false, false, false, false, fresh.resources⟩) ∧
      ((TSEE_Create 800 600 (fun _ => true) ⟨false, false, false, false, false, true⟩
        0).1.map (fun t => t.init.resources)) = some true := by
  constructor
  · intro width height fresh now
    simp [TSEE_Create]
  · decide

/-! ### Camera: what each stage does to the scroll state -/

theorem scrollHorizontal_scroll_y (window : TSEE_Window) (world : TSEE_World) (obj : Nat)
    (pos : SDL_Rect) : (scrollHorizontal window world obj pos).scroll_y = world.scroll_y := by
  unfold scrollHorizontal
  cases horizontalBranch window world pos <;> rfl

theorem scrollHorizontal_max (window : TSEE_Window) (world : TSEE_World) (obj : Nat)
    (pos : SDL_Rect) :
    (scrollHorizontal window world obj pos).max_scroll_x = world.max_scroll_x := by
  unfold scrollHorizontal
  cases horizontalBranch window world pos <;> rfl

theorem scrollHorizontal_scroll_x (window : TSEE_Window) (world : TSEE_World) (obj : Nat)
    (pos : SDL_Rect) :
    (scrollHorizontal window world obj pos).scroll_x =
      match horizontalBranch window world pos with
      | HBranch.left => world.scroll_x - (half_win_width window - mid_x pos)
      | HBranch.right => world.scroll_x + (mid_x pos - half_win_width window)
      | HBranch.skip => world.scroll_x := by
  unfold scrollHorizontal
  cases horizontalBranch window world pos <;> rfl

theorem scrollVertical_scroll_x (window : TSEE_Window) (world : TSEE_World) (obj : Nat)
    (pos : SDL_Rect) : (scrollVertical window world obj pos).scroll_x = world.scroll_x := by
  unfold scrollVertical
  cases verticalBranch window world pos <;> rfl

theorem scrollVertical_max (window : TSEE_Window) (world : TSEE_World) (obj : Nat)
    (pos : SDL_Rect) :
    (scrollVertical window world obj pos).max_scroll_x = world.max_scroll_x := by
  unfold scrollVertical
  cases verticalBranch window world pos <;> rfl

theorem scrollVertical_scroll_y (window : TSEE_Window) (world : TSEE_World) (obj : Nat)
    (pos : SDL_Rect) :
    (scrollVertical window world obj pos).scroll_y =
      match verticalBranch window world pos with
      | VBranch.floor => world.scroll_y - (mid_y pos - half_win_height window * (3 / 4))
      | VBranch.ceiling => world.scroll_y + (half_win_height window * (1 / 4) - mid_y pos)
      | VBranch.skip => world.scroll_y := by
  unfold scrollVertical
  cases verticalBranch window world pos <;> rfl

theorem clampScroll_max (world : TSEE_World) :
    (clampScroll world).max_scroll_x = world.max_scroll_x := by
  unfold clampScroll
  dsimp only
  split_ifs <;> rfl

theorem clampScroll_objects (world : TSEE_World) :
    (clampScroll world).objects = world.objects := by
  unfold clampScroll
  dsimp only
  split_ifs <;> rfl

theorem clampScroll_scroll_x (world : TSEE_World) :
    (clampScroll world).scroll_x =
      if world.scroll_x < 0 then 0
      else if world.scroll_x > world.max_scroll_x then world.max_scroll_x
      else world.scroll_x := by
  unfold clampScroll
  dsimp only
  split_ifs <;> rfl

theorem clampScroll_scroll_y (world : TSEE_World) :
    (clampScroll world).scroll_y = if world.scroll_y < 0 then 0 else world.scroll_y := by
  unfold clampScroll
  dsimp only
  split_ifs <;> rfl

/-- The scroll state `TSEE_World_ScrollToObject` leaves is the clamped state
of the two dead-zone stages; the loop does not touch it. -/
theorem scrollToObject_scroll (A : TSEE_Attribs) (window : TSEE_Window) (world : TSEE_World)
    (obj : Nat) (pos : SDL_Rect) :
    (TSEE_World_ScrollToObject A window world obj pos).scroll_x =
        (clampScroll (scrollVertical window
          (scrollHorizontal window world obj pos) obj pos)).scroll_x ∧
      (TSEE_World_ScrollToObject A window world obj pos).scroll_y =
        (clampScroll (scrollVertical window
          (scrollHorizontal window world obj pos) obj pos)).scroll_y ∧
      (TSEE_World_ScrollToObject A window world obj pos).max_scroll_x =
        world.max_scroll_x := by
  refine ⟨rfl, rfl, ?_⟩
  show (clampScroll _).max_scroll_x = _
  rw [clampScroll_max, scrollVertical_max, scrollHorizontal_max]

/-- The clamp invariant after one call. -/
theorem scrollToObject_bounds (A : TSEE_Attribs) (window : TSEE_Window) (world : TSEE_World)
    (obj : Nat) (pos : SDL_Rect) (hmax : 0 ≤ world.max_scroll_x) :
    0 ≤ (TSEE_World_ScrollToObject A window world obj pos).scroll_x ∧
      (TSEE_World_ScrollToObject A window world obj pos).scroll_x ≤ world.max_scroll_x ∧
      0 ≤ (TSEE_World_ScrollToObject A window world obj pos).scroll_y := by
  obtain ⟨hx, hy, -⟩ := scrollToObject_scroll A window world obj pos
  rw [hx, hy, clampScroll_scroll_x, clampScroll_scroll_y, scrollVertical_max,
    scrollHorizontal_max]
  refine ⟨?_, ?_, ?_⟩
  · split_ifs with h1 h2
    · exact le_refl _
    · exact hmax
    · exact not_lt.mp h1
  · split_ifs with h1 h2
    · exact hmax
    · exact le_refl _
    · exact not_lt.mp h2
  · split_ifs with h1
    · exact le_refl _
    · exact not_lt.mp h1

/-- A sequence of calls ending in the call `c`. -/
theorem scrollSequence_append (A : TSEE_Attribs) (world : TSEE_World)
    (calls : List CameraCall) (c : CameraCall) :
    scrollSequence A world (calls ++ [c]) =
      TSEE_World_ScrollToObject A c.window
        { scrollSequence A world calls with
          objects := c.objects, max_scroll_x := c.max_scroll_x } c.obj c.pos := by
  simp [scrollSequence, List.foldl_append]

/-- C3: when `max_scroll_x >= 0`, after `TSEE_World_ScrollToObject` the scroll
state satisfies `0 <= scroll_x <= max_scroll_x` and `scroll_y >= 0`, whatever
the prior scroll state and the rectangle of the tracked entity; the bound
itself is unchanged; and `scroll_x` is 0 after every call of a sequence of
calls that is made with `max_scroll_x = 0`. -/
theorem scroll_clamp_invariant (A : TSEE_Attribs) (window : TSEE_Window) (world : TSEE_World)
    (obj : Nat) (pos : SDL_Rect) (hmax : 0 ≤ world.max_scroll_x) :
    (TSEE_World_ScrollToObject A window world obj pos).max_scroll_x = world.max_scroll_x ∧
      0 ≤ (TSEE_World_ScrollToObject A window world obj pos).scroll_x ∧
      (TSEE_World_ScrollToObject A window world obj pos).scroll_x ≤
        (TSEE_World_ScrollToObject A window world obj pos).max_scroll_x ∧
      0 ≤ (TSEE_World_ScrollToObject A window world obj pos).scroll_y ∧
      ∀ (calls : List CameraCall) (c : CameraCall), c.max_scroll_x = 0 →
        (scrollSequence A world (calls ++ [c])).scroll_x = 0 := by
  have hm := (scrollToObject_scroll A window world obj pos).2.2
  obtain ⟨h0, h1, h2⟩ := scrollToObject_bounds A window world obj pos hmax
  refine ⟨hm, h0, hm ▸ h1, h2, ?_⟩
  intro calls c hz
  rw [scrollSequence_append]
  obtain ⟨k0, k1, -⟩ :=
    scrollToObject_bounds A c.window
      { scrollSequence A world calls with
        objects := c.objects, max_scroll_x := c.max_scroll_x } c.obj c.pos
      (le_of_eq hz.symm)
  exact le_antisymm (hz ▸ k1) k0

/-- Witness of C3: a world scrolled to `(-50, -7)` tracking a rectangle far
to the left, and a single-screen call after it. -/
theorem scroll_clamp_invariant_witness :
    0 ≤ (sampleWorld (-50) (-7)).max_scroll_x ∧
      0 ≤ (TSEE_World_ScrollToObject sampleAttribs sampleWindow (sampleWorld (-50) (-7)) 0
        ⟨-5000, 0, 20, 20⟩).scroll_x ∧
      (TSEE_World_ScrollToObject sampleAttribs sampleWindow (sampleWorld (-50) (-7)) 0
        ⟨-5000, 0, 20, 20⟩).scroll_x ≤
        (TSEE_World_ScrollToObject sampleAttribs sampleWindow (sampleWorld (-50) (-7)) 0
          ⟨-5000, 0, 20, 20⟩).max_scroll_x ∧
      0 ≤ (TSEE_World_ScrollToObject sampleAttribs sampleWindow (sampleWorld (-50) (-7)) 0
        ⟨-5000, 0, 20, 20⟩).scroll_y ∧
      (scrollSequence sampleAttribs (sampleWorld (-50) (-7))
        ([] ++ [⟨sampleWindow, [sampleObject], 0, 0, ⟨900, 0, 20, 20⟩⟩])).scroll_x = 0 :=
  have hmax : 0 ≤ (sampleWorld (-50) (-7)).max_scroll_x := by simp [sampleWorld]
  have h := scroll_clamp_invariant sampleAttribs sampleWindow (sampleWorld (-50) (-7)) 0
    ⟨-5000, 0, 20, 20⟩ hmax
  ⟨hmax, h.2.1, h.2.2.1, h.2.2.2.1,
    h.2.2.2.2 [] ⟨sampleWindow, [sampleObject], 0, 0, ⟨900, 0, 20, 20⟩⟩ rfl⟩

/-- The clamp of lines 330-334 is the clamp into `[0, M]` when `0 <= M`. -/
theorem clamp_eq_max_min (M v : ℚ) (hM : 0 ≤ M) :
    (if v < 0 then 0 else if v > M then M else v) = max 0 (min M v) := by
  rw [max_def, min_def]
  split_ifs <;> linarith

/-- C5: entered with `0 <= scroll_x <= max_scroll_x`, the call leaves
`scroll_x` equal to the clamp into `[0, max_scroll_x]` of
`scroll_x - (width/2 - mid_x)` when `mid_x < width/2` and `scroll_x > 0`, to
the clamp of `scroll_x + (mid_x - width/2)` when `mid_x > width/2` and
`scroll_x < max_scroll_x`, and to the old `scroll_x` otherwise. -/
theorem scroll_x_dead_zone (A : TSEE_Attribs) (window : TSEE_Window) (world : TSEE_World)
    (obj : Nat) (pos : SDL_Rect) (h0 : 0 ≤ world.scroll_x)
    (h1 : world.scroll_x ≤ world.max_scroll_x) :
    (TSEE_World_ScrollToObject A window world obj pos).scroll_x =
      if mid_x pos < (window.width : ℚ) / 2 ∧ world.scroll_x > 0 then
        max 0 (min world.max_scroll_x
          (world.scroll_x - ((window.width : ℚ) / 2 - mid_x pos)))
      else if mid_x pos > (window.width : ℚ) / 2 ∧ world.scroll_x < world.max_scroll_x then
        max 0 (min world.max_scroll_x
          (world.scroll_x + (mid_x pos - (window.width : ℚ) / 2)))
      else world.scroll_x := by
  have hM : 0 ≤ world.max_scroll_x := le_trans h0 h1
  rw [(scrollToObject_scroll A window world obj pos).1, clampScroll_scroll_x,
    scrollVertical_scroll_x, scrollVertical_max, scrollHorizontal_max,
    scrollHorizontal_scroll_x, clamp_eq_max_min _ _ hM]
  unfold horizontalBranch half_win_width
  split_ifs with ha hb
  · rfl
  · rfl
  · show max 0 (min world.max_scroll_x world.scroll_x) = world.scroll_x
    rw [min_eq_right h1, max_eq_right h0]

/-- The mid-point of a rectangle at `x = 590` of width 20 is 600. -/
theorem mid_x_sample_right : mid_x ⟨590, 0, 20, 0⟩ = 600 := by
  have h : wrap32 (590 + Int.tdiv 20 2) = 600 := by decide
  simp [mid_x, h]

/-- The mid-point of a rectangle at `x = 40` of width 20 is 50. -/
theorem mid_x_sample_left : mid_x ⟨40, 0, 20, 0⟩ = 50 := by
  have h : wrap32 (40 + Int.tdiv 20 2) = 50 := by decide
  simp [mid_x, h]

/-- Witness of C5, the two scenarios of the spec: width 800,
`max_scroll_x = 1000`, `scroll_x = 500`, `mid_x = 600` gives 700; width 800,
`scroll_x = 0`, `mid_x = 50` gives 0. -/
theorem scroll_x_dead_zone_witness :
    (TSEE_World_ScrollToObject sampleAttribs sampleWindow (sampleWorld 500 0) 0
        ⟨590, 0, 20, 0⟩).scroll_x = 700 ∧
      (TSEE_World_ScrollToObject sampleAttribs sampleWindow (sampleWorld 0 0) 0
        ⟨40, 0, 20, 0⟩).scroll_x = 0 :=
  ⟨(scroll_x_dead_zone sampleAttribs sampleWindow (sampleWorld 500 0) 0 ⟨590, 0, 20, 0⟩
      (by simp [sampleWorld]) (by norm_num [sampleWorld])).trans
      (by rw [mid_x_sample_right]; norm_num [sampleWorld, sampleWindow]),
    (scroll_x_dead_zone sampleAttribs sampleWindow (sampleWorld 0 0) 0 ⟨40, 0, 20, 0⟩
      (by simp [sampleWorld]) (by norm_num [sampleWorld])).trans
      (by rw [mid_x_sample_left]; norm_num [sampleWorld, sampleWindow])⟩

/-! ### Camera: the vertical ceiling branch -/

/-- With `scroll_y >= 0` the guard of line 324 fails. -/
theorem verticalBranch_ne_ceiling (window : TSEE_Window) (world : TSEE_World) (pos : SDL_Rect)
    (h : 0 ≤ world.scroll_y) : verticalBranch window world pos ≠ VBranch.ceiling := by
  unfold verticalBranch
  split_ifs with h1 h2
  · simp
  · exact absurd h2.2 (not_lt.mpr h)
  · simp

/-- Entered with `scroll_y >= 0`, a call does not take the ceiling branch and
does not increase `scroll_y`. -/
theorem scrollToObject_scroll_y_le (A : TSEE_Attribs) (window : TSEE_Window)
    (world : TSEE_World) (obj : Nat) (pos : SDL_Rect) (h : 0 ≤ world.scroll_y) :
    verticalBranch window (scrollHorizontal window world obj pos) pos ≠ VBranch.ceiling ∧
      (TSEE_World_ScrollToObject A window world obj pos).scroll_y ≤ world.scroll_y := by
  have hy : 0 ≤ (scrollHorizontal window world obj pos).scroll_y := by
    rw [scrollHorizontal_scroll_y]; exact h
  have hne := verticalBranch_ne_ceiling window (scrollHorizontal window world obj pos) pos hy
  refine ⟨hne, ?_⟩
  rw [(scrollToObject_scroll A window world obj pos).2.1, clampScroll_scroll_y,
    scrollVertical_scroll_y]
  have hb : verticalBranch window (scrollHorizontal window world obj pos) pos = VBranch.floor →
      half_win_height window * (3 / 4) < mid_y pos := by
    unfold verticalBranch
    split_ifs with h1 h2
    · intro _; exact h1
    · intro hc; cases hc
    · intro hc; cases hc
  cases hv : verticalBranch window (scrollHorizontal window world obj pos) pos
  · have hlt := hb hv
    rw [scrollHorizontal_scroll_y]
    dsimp only
    split_ifs
    · exact h
    · exact sub_le_self _ (sub_nonneg.mpr (le_of_lt hlt))
  · exact absurd hv hne
  · rw [scrollHorizontal_scroll_y]
    dsimp only
    split_ifs
    · exact h
    · exact le_refl _

/-- A sequence of calls entered with `scroll_y = 0` ends with `scroll_y = 0`. -/
theorem scrollSequence_scroll_y_zero (A : TSEE_Attribs) (calls : List CameraCall)
    (world : TSEE_World) (h : world.scroll_y = 0) :
    (scrollSequence A world calls).scroll_y = 0 := by
  induction calls generalizing world with
  | nil => exact h
  | cons c cs ih =>
    show (scrollSequence A (TSEE_World_ScrollToObject A c.window
      { world with objects := c.objects, max_scroll_x := c.max_scroll_x } c.obj c.pos)
      cs).scroll_y = 0
    apply ih
    have hle := (scrollToObject_scroll_y_le A c.window
      { world with objects := c.objects, max_scroll_x := c.max_scroll_x } c.obj c.pos
      (le_of_eq h.symm)).2
    have hge : 0 ≤ (TSEE_World_ScrollToObject A c.window
        { world with objects := c.objects, max_scroll_x := c.max_scroll_x }
        c.obj c.pos).scroll_y := by
      rw [(scrollToObject_scroll A c.window _ c.obj c.pos).2.1, clampScroll_scroll_y]
      split_ifs with h1
      · exact le_refl _
      · exact not_lt.mp h1
    have hle0 : (TSEE_World_ScrollToObject A c.window
        { world with objects := c.objects, max_scroll_x := c.max_scroll_x }
        c.obj c.pos).scroll_y ≤ 0 := by
      calc _ ≤ world.scroll_y := hle
        _ = 0 := h
    exact le_antisymm hle0 hge

/-- An engine `TSEE_Create` returns has `scroll_y = 0`. -/
theorem create_scroll_y (width height : Int) (xmalloc : Block → Bool) (fresh : TSEE_Init)
    (now : Nat) (tsee : TSEE)
    (h : (TSEE_Create width height xmalloc fresh now).1 = some tsee) :
    tsee.world.scroll_y = 0 := by
  unfold TSEE_Create at h
  dsimp only at h
  split_ifs at h
  have h2 := Option.some.inj h
  rw [← h2]

/-- C10: a call of `TSEE_World_ScrollToObject` entered with `scroll_y >= 0`
does not take the vertical ceiling branch and leaves `scroll_y` no larger
than it was; and for an engine `TSEE_Create` returns, `scroll_y` is 0 after
every sequence of calls, and the ceiling branch is not taken by the next
call either. -/
theorem ceiling_branch_never_taken :
    (∀ (A : TSEE_Attribs) (window : TSEE_Window) (world : TSEE_World) (obj : Nat)
        (pos : SDL_Rect), 0 ≤ world.scroll_y →
        verticalBranch window (scrollHorizontal window world obj pos) pos ≠ VBranch.ceiling ∧
          (TSEE_World_ScrollToObject A window world obj pos).scroll_y ≤ world.scroll_y) ∧
      (∀ (width height : Int) (xmalloc : Block → Bool) (fresh : TSEE_Init) (now : Nat)
        (tsee : TSEE), (TSEE_Create width height xmalloc fresh now).1 = some tsee →
        ∀ (A : TSEE_Attribs) (calls : List CameraCall),
          (scrollSequence A tsee.world calls).scroll_y = 0 ∧
            ∀ c : CameraCall,
              verticalBranch c.window
                (scrollHorizontal c.window
                  { scrollSequence A tsee.world calls with
                    objects := c.objects, max_scroll_x := c.max_scroll_x } c.obj c.pos)
                c.pos ≠ VBranch.ceiling) := by
  refine ⟨fun A window world obj pos h => scrollToObject_scroll_y_le A window world obj pos h,
    ?_⟩
  intro width height xmalloc fresh now tsee hc A calls
  have h0 := create_scroll_y width height xmalloc fresh now tsee hc
  have hs := scrollSequence_scroll_y_zero A calls tsee.world h0
  refine ⟨hs, fun c => ?_⟩
  exact (scrollToObject_scroll_y_le A c.window
    { scrollSequence A tsee.world calls with
      objects := c.objects, max_scroll_x := c.max_scroll_x } c.obj c.pos
    (le_of_eq hs.symm)).1

/-- Witness of C10: a call entered with `scroll_y = 5` whose tracked
rectangle is above the ceiling threshold, and two calls on the engine
`TSEE_Create(800, 600)` returns. -/
theorem ceiling_branch_never_taken_witness :
    0 ≤ (sampleWorld 0 5).scroll_y ∧
      verticalBranch sampleWindow
        (scrollHorizontal sampleWindow (sampleWorld 0 5) 0 ⟨40, 10, 20, 20⟩)
        ⟨40, 10, 20, 20⟩ ≠ VBranch.ceiling ∧
      (TSEE_World_ScrollToObject sampleAttribs sampleWindow (sampleWorld 0 5) 0
        ⟨40, 10, 20, 20⟩).scroll_y ≤ (sampleWorld 0 5).scroll_y ∧
      (TSEE_Create 800 600 (fun _ => true) ⟨true, true, true, true, true, true⟩ 0).1 =
        some sampleEngine ∧
      (scrollSequence sampleAttribs sampleEngine.world
        [⟨sampleWindow, [sampleObject], 1000, 0, ⟨40, 10, 20, 20⟩⟩,
          ⟨sampleWindow, [sampleObject], 1000, 0, ⟨40, 500, 20, 20⟩⟩]).scroll_y = 0 :=
  have h5 : 0 ≤ (sampleWorld 0 5).scroll_y := by simp [sampleWorld]
  have hc : (TSEE_Create 800 600 (fun _ => true) ⟨true, true, true, true, true, true⟩ 0).1 =
      some sampleEngine := rfl
  have h1 := ceiling_branch_never_taken.1 sampleAttribs sampleWindow (sampleWorld 0 5) 0
    ⟨40, 10, 20, 20⟩ h5
  ⟨h5, h1.1, h1.2, hc,
    (ceiling_branch_never_taken.2 800 600 (fun _ => true) ⟨true, true, true, true, true, true⟩
      0 sampleEngine hc sampleAttribs _).1⟩

/-! ### Camera: the re-projection loop -/

/-- An integer value in the range of `int` is stored unchanged. -/
theorem double_to_int_intCast (n : Int) (hlo : -2 ^ 31 ≤ n) (hhi : n < 2 ^ 31) :
    double_to_int (n : ℚ) = n := by
  unfold double_to_int wrap32
  have hn : (if (0 : ℚ) ≤ (n : ℚ) then ⌊(n : ℚ)⌋ else ⌈(n : ℚ)⌉) = n := by
    split_ifs
    · exact Int.floor_intCast n
    · exact Int.ceil_intCast n
  rw [hn, Int.bmod_def]
  norm_num
  split_ifs <;> omega

/-- The value -1299/2 is stored as -649. -/
theorem double_to_int_sample : double_to_int (-1299 / 2) = -649 := by
  unfold double_to_int
  have hneg : ¬ (0 : ℚ) ≤ -1299 / 2 := by norm_num
  have hceil : ⌈(-1299 / 2 : ℚ)⌉ = -649 := by
    rw [Int.ceil_eq_iff]
    norm_num
  rw [if_neg hneg, hceil]
  decide

/-- A store into the screen rectangle of the entity at index `n` leaves the
position and the attributes of every entity as they were. -/
theorem getElem?_modify_rect (f : TSEE_Object → TSEE_Object)
    (hf : ∀ o, (f o).position = o.position ∧ (f o).attributes = o.attributes)
    (l : List TSEE_Object) (n i : Nat) (o : TSEE_Object) (h : l[i]? = some o) :
    ∃ o1, (l.modify f n)[i]? = some o1 ∧ o1.position = o.position ∧
      o1.attributes = o.attributes := by
  rw [List.getElem?_modify, h]
  refine ⟨if n = i then f o else o, rfl, ?_⟩
  split_ifs
  · exact hf o
  · exact ⟨rfl, rfl⟩

theorem scrollHorizontal_objects (window : TSEE_Window) (world : TSEE_World) (obj : Nat)
    (pos : SDL_Rect) (i : Nat) (o : TSEE_Object) (h : world.objects[i]? = some o) :
    ∃ o1, (scrollHorizontal window world obj pos).objects[i]? = some o1 ∧
      o1.position = o.position ∧ o1.attributes = o.attributes := by
  unfold scrollHorizontal
  cases horizontalBranch window world pos <;> dsimp only
  · exact getElem?_modify_rect (setRectX _) (fun _ => ⟨rfl, rfl⟩) _ _ _ _ h
  · exact getElem?_modify_rect (setRectX _) (fun _ => ⟨rfl, rfl⟩) _ _ _ _ h
  · exact ⟨o, h, rfl, rfl⟩

theorem scrollVertical_objects (window : TSEE_Window) (world : TSEE_World) (obj : Nat)
    (pos : SDL_Rect) (i : Nat) (o : TSEE_Object) (h : world.objects[i]? = some o) :
    ∃ o1, (scrollVertical window world obj pos).objects[i]? = some o1 ∧
      o1.position = o.position ∧ o1.attributes = o.attributes := by
  unfold scrollVertical
  cases verticalBranch window world pos <;> dsimp only
  · exact getElem?_modify_rect (setRectY _) (fun _ => ⟨rfl, rfl⟩) _ _ _ _ h
  · exact getElem?_modify_rect (setRectY _) (fun _ => ⟨rfl, rfl⟩) _ _ _ _ h
  · exact ⟨o, h, rfl, rfl⟩

theorem scrollHorizontal_length (window : TSEE_Window) (world : TSEE_World) (obj : Nat)
    (pos : SDL_Rect) :
    (scrollHorizontal window world obj pos).objects.length = world.objects.length := by
  unfold scrollHorizontal
  cases horizontalBranch window world pos <;> simp

theorem scrollVertical_length (window : TSEE_Window) (world : TSEE_World) (obj : Nat)
    (pos : SDL_Rect) :
    (scrollVertical window world obj pos).objects.length = world.objects.length := by
  unfold scrollVertical
  cases verticalBranch window world pos <;> simp

/-- The call keeps the number of entities of the main sequence. -/
theorem scrollToObject_length (A : TSEE_Attribs) (window : TSEE_Window) (world : TSEE_World)
    (obj : Nat) (pos : SDL_Rect) :
    (TSEE_World_ScrollToObject A window world obj pos).objects.length =
      world.objects.length := by
  show (List.map _ (clampScroll _).objects).length = _
  rw [List.length_map, clampScroll_objects, scrollVertical_length, scrollHorizontal_length]

/-- What the body of the loop does to one entity. -/
theorem reprojectObject_spec (A : TSEE_Attribs) (window : TSEE_Window) (world : TSEE_World)
    (o : TSEE_Object) :
    (reprojectObject A window world o).position = o.position ∧
      (reprojectObject A window world o).attributes = o.attributes ∧
      (TSEE_Object_CheckAttribute o A.UI = false →
        TSEE_Object_CheckAttribute o A.PLAYER = false →
        (reprojectObject A window world o).rect.y =
            double_to_int (-o.position.y + (window.height : ℚ) - world.scroll_y) ∧
          (TSEE_Object_CheckAttribute o A.PARALLAX = false →
            (reprojectObject A window world o).rect.x =
              double_to_int (o.position.x - world.scroll_x))) := by
  unfold reprojectObject
  cases hui : TSEE_Object_CheckAttribute o A.UI <;>
  cases hpl : TSEE_Object_CheckAttribute o A.PLAYER <;>
  cases hpa : TSEE_Object_CheckAttribute o A.PARALLAX <;>
  simp [setRectX, setRectY]

/-- What the call does to the entity at index `i` of the main sequence: it
is still at index `i`, with its position and attributes, and if it has
neither the UI nor the PLAYER trait its screen rectangle holds the
re-projected coordinates converted to `int`. -/
theorem scrollToObject_objects (A : TSEE_Attribs) (window : TSEE_Window) (world : TSEE_World)
    (obj : Nat) (pos : SDL_Rect) (i : Nat) (o : TSEE_Object)
    (hget : world.objects[i]? = some o) :
    ∃ o', (TSEE_World_ScrollToObject A window world obj pos).objects[i]? = some o' ∧
      o'.position = o.position ∧ o'.attributes = o.attributes ∧
      (TSEE_Object_CheckAttribute o A.UI = false →
        TSEE_Object_CheckAttribute o A.PLAYER = false →
        o'.rect.y = double_to_int (-o.position.y + (window.height : ℚ) -
            (TSEE_World_ScrollToObject A window world obj pos).scroll_y) ∧
          (TSEE_Object_CheckAttribute o A.PARALLAX = false →
            o'.rect.x = double_to_int (o.position.x -
              (TSEE_World_ScrollToObject A window world obj pos).scroll_x))) := by
  obtain ⟨o1, h1, hp1, ha1⟩ := scrollHorizontal_objects window world obj pos i o hget
  obtain ⟨o2, h2, hp2, ha2⟩ :=
    scrollVertical_objects window (scrollHorizontal window world obj pos) obj pos i o1 h1
  obtain ⟨hp, ha, hrect⟩ := reprojectObject_spec A window (clampScroll (scrollVertical window
    (scrollHorizontal window world obj pos) obj pos)) o2
  have hattr : o2.attributes = o.attributes := by rw [ha2, ha1]
  have hpos : o2.position = o.position := by rw [hp2, hp1]
  refine ⟨reprojectObject A window (clampScroll (scrollVertical window
    (scrollHorizontal window world obj pos) obj pos)) o2, ?_, ?_, ?_, ?_⟩
  · show (List.map _ (clampScroll _).objects)[i]? = _
    rw [List.getElem?_map, clampScroll_objects, h2]
    rfl
  · rw [hp, hpos]
  · rw [ha, hattr]
  · intro hui hpl
    have hui2 : TSEE_Object_CheckAttribute o2 A.UI = false := by
      unfold TSEE_Object_CheckAttribute at hui ⊢
      rw [hattr]; exact hui
    have hpl2 : TSEE_Object_CheckAttribute o2 A.PLAYER = false := by
      unfold TSEE_Object_CheckAttribute at hpl ⊢
      rw [hattr]; exact hpl
    obtain ⟨hy, hx⟩ := hrect hui2 hpl2
    refine ⟨?_, ?_⟩
    · rw [hy, hpos]; rfl
    · intro hpa
      have hpa2 : TSEE_Object_CheckAttribute o2 A.PARALLAX = false := by
        unfold TSEE_Object_CheckAttribute at hpa ⊢
        rw [hattr]; exact hpa
      rw [hx hpa2, hpos]; rfl

/-- C4 (as amended): after `TSEE_World_ScrollToObject` the main sequence holds
as many entities as before, and every entity `o` of it is found at its index
with its position and attributes as an entity `o'` such that, when it has
neither the UI nor the PLAYER trait, `screen.y` is
`-world.y + window.height - scroll_y` converted to `int` (fractional part
discarded) and, when it also lacks the PARALLAX trait, `screen.x` is
`world.x - scroll_x` converted to `int`, with the scroll offsets the call
leaves in the world; whenever such a value is an integer in the range of
`int`, the screen coordinate equals it. -/
theorem reprojection_formula (A : TSEE_Attribs) (window : TSEE_Window) (world : TSEE_World)
    (obj : Nat) (pos : SDL_Rect) :
    (TSEE_World_ScrollToObject A window world obj pos).objects.length =
        world.objects.length ∧
      ∀ (i : Nat) (o : TSEE_Object), world.objects[i]? = some o →
        ∃ o', (TSEE_World_ScrollToObject A window world obj pos).objects[i]? = some o' ∧
          o'.position = o.position ∧ o'.attributes = o.attributes ∧
          (TSEE_Object_CheckAttribute o' A.UI = false →
            TSEE_Object_CheckAttribute o' A.PLAYER = false →
            (o'.rect.y = double_to_int (-o'.position.y + (window.height : ℚ) -
                (TSEE_World_ScrollToObject A window world obj pos).scroll_y) ∧
              ∀ n : Int, -2 ^ 31 ≤ n → n < 2 ^ 31 →
                -o'.position.y + (window.height : ℚ) -
                  (TSEE_World_ScrollToObject A window world obj pos).scroll_y = (n : ℚ) →
                o'.rect.y = n) ∧
            (TSEE_Object_CheckAttribute o' A.PARALLAX = false →
              o'.rect.x = double_to_int (o'.position.x -
                  (TSEE_World_ScrollToObject A window world obj pos).scroll_x) ∧
                ∀ n : Int, -2 ^ 31 ≤ n → n < 2 ^ 31 →
                  o'.position.x -
                    (TSEE_World_ScrollToObject A window world obj pos).scroll_x = (n : ℚ) →
                  o'.rect.x = n)) := by
  refine ⟨scrollToObject_length A window world obj pos, ?_⟩
  intro i o hget
  obtain ⟨o', h', hp, ha, hrect⟩ := scrollToObject_objects A window world obj pos i o hget
  refine ⟨o', h', hp, ha, ?_⟩
  intro hui hpl
  have hui0 : TSEE_Object_CheckAttribute o A.UI = false := by
    unfold TSEE_Object_CheckAttribute at hui ⊢
    rw [← ha]; exact hui
  have hpl0 : TSEE_Object_CheckAttribute o A.PLAYER = false := by
    unfold TSEE_Object_CheckAttribute at hpl ⊢
    rw [← ha]; exact hpl
  obtain ⟨hy, hx⟩ := hrect hui0 hpl0
  rw [← hp] at hy hx
  refine ⟨⟨hy, ?_⟩, ?_⟩
  · intro n hlo hhi hn
    rw [hy, hn]
    exact double_to_int_intCast n hlo hhi
  · intro hpa
    have hpa0 : TSEE_Object_CheckAttribute o A.PARALLAX = false := by
      unfold TSEE_Object_CheckAttribute at hpa ⊢
      rw [← ha]; exact hpa
    refine ⟨hx hpa0, ?_⟩
    intro n hlo hhi hn
    rw [hx hpa0, hn]
    exact double_to_int_intCast n hlo hhi

/-- The mid-point of a rectangle at `y = 0` of height 0 is 0. -/
theorem mid_y_sample : mid_y ⟨590, 0, 20, 0⟩ = 0 := by
  have h : wrap32 (0 + Int.tdiv 0 2) = 0 := by decide
  show ((wrap32 (0 + Int.tdiv 0 2) : Int) : ℚ) = 0
  rw [h]
  simp

/-- In the 800 wide window, from `scroll_x = 500` with `mid_x = 600`, the call
leaves the scroll offsets (700, 0). -/
theorem sample_scroll :
    (TSEE_World_ScrollToObject sampleAttribs sampleWindow (sampleWorld 500 0) 0
        ⟨590, 0, 20, 0⟩).scroll_x = 700 ∧
      (TSEE_World_ScrollToObject sampleAttribs sampleWindow (sampleWorld 500 0) 0
        ⟨590, 0, 20, 0⟩).scroll_y = 0 := by
  obtain ⟨hx, hy, -⟩ := scrollToObject_scroll sampleAttribs sampleWindow (sampleWorld 500 0) 0
    ⟨590, 0, 20, 0⟩
  rw [hx, hy, clampScroll_scroll_x, clampScroll_scroll_y, scrollVertical_scroll_x,
    scrollVertical_max, scrollHorizontal_max, scrollHorizontal_scroll_x,
    scrollVertical_scroll_y, scrollHorizontal_scroll_y]
  simp only [horizontalBranch, verticalBranch, mid_x_sample_right, mid_y_sample,
    half_win_width, half_win_height, sampleWorld, sampleWindow, scrollHorizontal_scroll_y]
  norm_num

/-- In the 801 wide window, from `scroll_x = 500` with `mid_x = 600`, the call
leaves `scroll_x = 1399/2`. -/
theorem odd_scroll_x :
    (TSEE_World_ScrollToObject sampleAttribs oddWindow (sampleWorld 500 0) 0
        ⟨590, 0, 20, 0⟩).scroll_x = 1399 / 2 := by
  rw [(scrollToObject_scroll sampleAttribs oddWindow (sampleWorld 500 0) 0
    ⟨590, 0, 20, 0⟩).1, clampScroll_scroll_x, scrollVertical_scroll_x,
    scrollVertical_max, scrollHorizontal_max, scrollHorizontal_scroll_x]
  simp only [horizontalBranch, mid_x_sample_right, half_win_width, sampleWorld, oddWindow]
  norm_num

/-- Witness of C4 on the scenario of the spec with `scroll_x = 500` and
`mid_x = 600`, the tracked entity being entity 0 of the main sequence: the
entity at world position (50, 0) ends at screen position (-650, 600). -/
theorem reprojection_formula_witness :
    (sampleWorld 500 0).objects[0]? = some sampleObject ∧
      ∃ o', (TSEE_World_ScrollToObject sampleAttribs sampleWindow (sampleWorld 500 0) 0
          ⟨590, 0, 20, 0⟩).objects[0]? = some o' ∧
        o'.position = { x := 50, y := 0 } ∧ o'.rect.x = -650 ∧ o'.rect.y = 600 := by
  refine ⟨rfl, ?_⟩
  obtain ⟨o', h', hp, ha, hrect⟩ :=
    (reprojection_formula sampleAttribs sampleWindow (sampleWorld 500 0) 0
      ⟨590, 0, 20, 0⟩).2 0 sampleObject rfl
  have hui : TSEE_Object_CheckAttribute o' sampleAttribs.UI = false := by
    unfold TSEE_Object_CheckAttribute; rw [ha]; decide
  have hpl : TSEE_Object_CheckAttribute o' sampleAttribs.PLAYER = false := by
    unfold TSEE_Object_CheckAttribute; rw [ha]; decide
  have hpa : TSEE_Object_CheckAttribute o' sampleAttribs.PARALLAX = false := by
    unfold TSEE_Object_CheckAttribute; rw [ha]; decide
  obtain ⟨⟨-, hy⟩, hx⟩ := hrect hui hpl
  refine ⟨o', h', hp, ?_, ?_⟩
  · refine (hx hpa).2 (-650) (by decide) (by decide) ?_
    rw [hp, sample_scroll.1]
    norm_num [sampleObject]
  · refine hy 600 (by decide) (by decide) ?_
    rw [hp, sample_scroll.2]
    norm_num [sampleObject, sampleWindow]

/-- C4 (as stated) fails in a window of width 801: from `scroll_x = 500` with
`mid_x = 600` the call leaves `scroll_x = 1399/2`, and the entity at world
position (50, 0), which has none of the three traits, gets `screen.x = -649`,
not `world.x - scroll_x = -1299/2`. -/
theorem reprojection_not_exact :
    ∃ o', (TSEE_World_ScrollToObject sampleAttribs oddWindow (sampleWorld 500 0) 0
        ⟨590, 0, 20, 0⟩).objects[0]? = some o' ∧
      TSEE_Object_CheckAttribute o' sampleAttribs.UI = false ∧
      TSEE_Object_CheckAttribute o' sampleAttribs.PLAYER = false ∧
      TSEE_Object_CheckAttribute o' sampleAttribs.PARALLAX = false ∧
      o'.position.x = 50 ∧
      (TSEE_World_ScrollToObject sampleAttribs oddWindow (sampleWorld 500 0) 0
        ⟨590, 0, 20, 0⟩).scroll_x = 1399 / 2 ∧
      o'.rect.x = -649 ∧
      (o'.rect.x : ℚ) ≠ o'.position.x -
        (TSEE_World_ScrollToObject sampleAttribs oddWindow (sampleWorld 500 0) 0
          ⟨590, 0, 20, 0⟩).scroll_x := by
  obtain ⟨o', h', hp, ha, hrect⟩ :=
    scrollToObject_objects sampleAttribs oddWindow (sampleWorld 500 0) 0
      ⟨590, 0, 20, 0⟩ 0 sampleObject rfl
  have hui : TSEE_Object_CheckAttribute o' sampleAttribs.UI = false := by
    unfold TSEE_Object_CheckAttribute; rw [ha]; decide
  have hpl : TSEE_Object_CheckAttribute o' sampleAttribs.PLAYER = false := by
    unfold TSEE_Object_CheckAttribute; rw [ha]; decide
  have hpa : TSEE_Object_CheckAttribute o' sampleAttribs.PARALLAX = false := by
    unfold TSEE_Object_CheckAttribute; rw [ha]; decide
  have hpx : o'.position.x = 50 := by rw [hp]; rfl
  have hx : o'.rect.x = -649 := by
    rw [(hrect (by decide) (by decide)).2 (by decide), odd_scroll_x]
    have harg : sampleObject.position.x - 1399 / 2 = (-1299 / 2 : ℚ) := by
      norm_num [sampleObject]
    rw [harg, double_to_int_sample]
  refine ⟨o', h', hui, hpl, hpa, hpx, odd_scroll_x, hx, ?_⟩
  rw [hx, hpx, odd_scroll_x]
  norm_num

end Tsee
